import Mathlib

/-!
Verification of the `token` package of kubernetes-ldap against its
natural-language specification.

The package issues and verifies ECDSA-P256 JWS tokens.  The cryptographic
library (square/go-jose) and the byte-level encodings are modelled
symbolically: a signature is an abstract record of the signing key and the
signed content, payload bytes are an abstract sum of canonical encodings and
opaque byte strings, and the compact wire form is an abstract sum of
well-formed three-segment strings and malformed strings.  The control flow of
every function of the package itself (`TokenExpired`, `ecdsaVerifier.Verify`,
`GenerateKeypair`, `NewIssuer`, `Issuer.Issue`, `NewVerifier`,
`Verifier.Verify`) is translated statement by statement from the Go source.
`time.Now()` is passed explicitly as a `nowMillis` parameter, and file-system
and randomness effects are passed explicitly as an environment.
-/

namespace KubernetesLdap

/-- Modelled from the spec: the token claims entity (the `AuthToken` type of
`token.go` and the `pb.Token` protobuf of `token/proto` are not under the
sources): a mandatory `expiration` timestamp in milliseconds since epoch,
plus opaque caller-defined claim fields transported verbatim. -/
structure Token where
  expiration : Int
  claims : List (String × String)
deriving DecidableEq, Repr

/-- Symbolic ECDSA private key: an abstract identifier for the keypair plus
the name of its elliptic curve. -/
structure ECPrivateKey where
  keyId : Nat
  curve : String
deriving DecidableEq, Repr

/-- Symbolic ECDSA public key: same keypair identifier and curve name. -/
structure ECPublicKey where
  keyId : Nat
  curve : String
deriving DecidableEq, Repr

/-- The public half of a private key (Go: `priv.Public()` /
`ecdsaKey.PublicKey`). -/
def ECPrivateKey.public (k : ECPrivateKey) : ECPublicKey :=
  ⟨k.keyId, k.curve⟩

/-- Symbolic payload bytes: either the canonical protobuf encoding of a
token, the canonical JSON encoding of a token, or opaque bytes that decode as
neither. -/
inductive Bytes
  | protoEnc (t : Token)
  | jsonEnc (t : Token)
  | raw (s : String)
deriving DecidableEq, Repr

/-- Symbolic ECDSA signature: records which key signed and what JOSE signing
input (header algorithm and payload) was signed.  Verification of a symbolic
signature succeeds exactly when the key matches and the signed content
matches, modelling an ideal unforgeable signature scheme. -/
structure Sig where
  keyId : Nat
  alg : String
  payload : Bytes
deriving DecidableEq, Repr

/-- Symbolic JWS object: the header's declared algorithm, the payload, and
the signature over header and payload. -/
structure JWS where
  alg : String
  payload : Bytes
  sig : Sig
deriving DecidableEq, Repr

/-- Symbolic wire string: either the compact serialization of a JWS object
(three base64url segments joined by dots) or a malformed string. -/
inductive Wire
  | malformed (s : String)
  | compact (w : JWS)
deriving DecidableEq, Repr

/-- Error classes surfaced by the jose layer, as the verification pipeline
distinguishes them. -/
inductive JoseError
  | parseFailed
  | unsupportedAlgOrCurve
  | signatureInvalid
  | wrongSizeKey
deriving DecidableEq, Repr

def joseErrStr : JoseError → String
  | .parseFailed => "square/go-jose: compact JWS format must have three parts"
  | .unsupportedAlgOrCurve => "square/go-jose: unsupported key type/algorithm"
  | .signatureInvalid => "square/go-jose: ecdsa signature failed to verify"
  | .wrongSizeKey => "square/go-jose: invalid key size for algorithm"

/-- The elliptic curve a JWS ECDSA algorithm identifier requires at signing
time (go-jose's per-algorithm expected key size check in `signPayload`);
`none` for algorithms an ECDSA key cannot sign with. -/
def algCurve (a : String) : Option String :=
  if a = "ES256" then some "P-256"
  else if a = "ES384" then some "P-384"
  else if a = "ES512" then some "P-521"
  else none

/-- Model of `jose.ParseSigned`: a compact serialization parses back to its
JWS object; anything else fails. -/
def joseParseSigned : Wire → Except JoseError JWS
  | .malformed _ => .error .parseFailed
  | .compact w => .ok w

/-- Model of `JsonWebSignature.Verify` with an ECDSA public key, following
go-jose's `verifyPayload` for EC keys: any declared algorithm among ES256,
ES384 and ES512 is accepted (others fail as unsupported), and the signature
must be the matching key's signature over the declared header and payload
under the declared algorithm.  No curve-versus-algorithm pinning happens at
verification time — go-jose checks the key's curve against the algorithm
only when signing.  Returns the payload bytes on success. -/
def joseJWSVerify (pub : ECPublicKey) (w : JWS) : Except JoseError Bytes :=
  if w.alg = "ES256" ∨ w.alg = "ES384" ∨ w.alg = "ES512" then
    if w.sig.keyId = pub.keyId ∧ w.sig.alg = w.alg ∧ w.sig.payload = w.payload then
      .ok w.payload
    else .error .signatureInvalid
  else .error .unsupportedAlgOrCurve

/-- Model of `jose.NewSigner(alg, key)` for an ECDSA private key: go-jose
only checks at construction time that the algorithm is one of the ECDSA
algorithms; the curve/key-size check happens at signing time. -/
def joseNewSigner (alg : String) (key : ECPrivateKey) :
    Except JoseError (String × ECPrivateKey) :=
  if alg = "ES256" ∨ alg = "ES384" ∨ alg = "ES512" then .ok (alg, key)
  else .error .unsupportedAlgOrCurve

/-- Model of `Signer.Sign` for an ECDSA signer: signing fails if the key's
curve does not match the algorithm's required curve; otherwise it produces a
JWS whose signature covers the declared algorithm and the payload. -/
def joseSignerSign (s : String × ECPrivateKey) (payload : Bytes) :
    Except JoseError JWS :=
  match algCurve s.1 with
  | none => .error .unsupportedAlgOrCurve
  | some c =>
    if s.2.curve = c then .ok ⟨s.1, payload, ⟨s.2.keyId, s.1, payload⟩⟩
    else .error .wrongSizeKey

/-- Model of `JsonWebSignature.CompactSerialize` for a single-signature
object: always succeeds, producing the wire form. -/
def joseCompactSerialize (w : JWS) : Wire :=
  .compact w

/-- Model of `proto.Marshal`: the deterministic canonical encoding of a
token (the spec's deterministic-encoding invariant). -/
def protoMarshal (t : Token) : Bytes :=
  .protoEnc t

/-- Model of `proto.Unmarshal` into a token: succeeds exactly on canonical
protobuf token encodings. -/
def protoUnmarshal : Bytes → Except String Token
  | .protoEnc t => .ok t
  | _ => .error "proto: cannot parse invalid wire-format data"

/-- Model of `json.Unmarshal` into a token: succeeds exactly on canonical
JSON token encodings. -/
def jsonUnmarshal : Bytes → Except String Token
  | .jsonEnc t => .ok t
  | _ => .error "invalid character in JSON input"

/-- The result a private-key file produces when read and decoded: the read
can fail, `jose.LoadPrivateKey` can fail, or a key of some type is
decoded. -/
inductive PrivKeyFile
  | unreadable (e : String)
  | undecodable (e : String)
  | ecdsaKey (k : ECPrivateKey)
  | otherKey (typeName : String)
deriving DecidableEq, Repr

/-- The result a public-key file produces when read and decoded. -/
inductive PubKeyFile
  | unreadable (e : String)
  | undecodable (e : String)
  | ecdsaKey (k : ECPublicKey)
  | otherKey (typeName : String)
deriving DecidableEq, Repr

/-- Source constant `curveName = "P-256"`. -/
def curveName : String := "P-256"

/-- Source constant `curveJose = jose.ES256`. -/
def curveJose : String := "ES256"

/-- Classification of the errors `Verify` can surface, following the spec's
taxonomy; the Go code propagates them as opaque `error` values in the same
positions. -/
inductive VerifyError
  | parseError
  | algorithmMismatch
  | signatureInvalid
  | payloadDecode
  | tokenExpired
deriving DecidableEq, Repr

def joseErrToVerifyError : JoseError → VerifyError
  | .parseFailed => .parseError
  | .unsupportedAlgOrCurve => .algorithmMismatch
  | .signatureInvalid => .signatureInvalid
  | .wrongSizeKey => .signatureInvalid

/-- The verifier of `verifier.go`: holds one ECDSA public key. -/
structure ecdsaVerifier where
  publicKey : ECPublicKey
deriving DecidableEq, Repr

/-- Source `TokenExpired` (verifier.go lines 72-79): true iff the token's
expiration is strictly below the current time in milliseconds.  The Go code
reads `time.Now()` internally; the embedding passes it as `nowMillis`. -/
def TokenExpired (token : Token) (nowMillis : Int) : Bool :=
  if token.expiration < nowMillis then true else false

/-- Source `ecdsaVerifier.Verify` (verifier.go lines 48-68), translated
statement by statement.  The Go function has named results
`(token *AuthToken, err error)`; the embedding returns that pair, with
`none` standing for a nil pointer / nil error. -/
def ecdsaVerifier.Verify (ev : ecdsaVerifier) (nowMillis : Int) (s : Wire) :
    Option Token × Option VerifyError :=
  match joseParseSigned s with
  | .error e => (none, some (joseErrToVerifyError e))
  | .ok jws =>
    match joseJWSVerify ev.publicKey jws with
    | .error e => (none, some (joseErrToVerifyError e))
    | .ok payload =>
      match jsonUnmarshal payload with
      | .error _ => (none, some .payloadDecode)
      | .ok token =>
        if TokenExpired token nowMillis then (none, some .tokenExpired)
        else (some token, none)

/-- Source `NewVerifier` (verifier.go lines 26-44 and 219-236, identical
logic): read the public-key file, decode it, and require the decoded key to
be an ECDSA public key.  No curve check is performed. -/
def NewVerifier (f : PubKeyFile) : Except String ecdsaVerifier :=
  match f with
  | .unreadable e => .error e
  | .undecodable e => .error e
  | .otherKey t =>
    .error ("Expected the public key to use ECDSA, but got a key of type " ++ t)
  | .ecdsaKey k => .ok ⟨k⟩

/-- The `Verifier` struct of the issuer file (lines 107-110). -/
structure Verifier where
  publicKey : ECPublicKey
deriving DecidableEq, Repr

/-- Source `Verifier.Verify` (lines 240-256): parse, verify the signature,
unmarshal the protobuf payload.  This variant performs no expiration
check. -/
def Verifier.Verify (v : Verifier) (s : Wire) :
    Option Token × Option VerifyError :=
  match joseParseSigned s with
  | .error e => (none, some (joseErrToVerifyError e))
  | .ok jws =>
    match joseJWSVerify v.publicKey jws with
    | .error e => (none, some (joseErrToVerifyError e))
    | .ok payload =>
      match protoUnmarshal payload with
      | .error _ => (none, some .payloadDecode)
      | .ok token => (some token, none)

/-- The `Issuer` struct (lines 97-105): an embedded `Verifier`, a jose
signer, and the optional `LogTokenIssued` observer returning `some` error
message on failure. -/
structure Issuer where
  verifier : Verifier
  signer : String × ECPrivateKey
  logTokenIssued : Option (Wire → Token → Option String)

/-- Source `NewIssuer` (lines 148-183), translated statement by statement.
When the decoded ECDSA key is on a curve other than `curveName`, the source
assigns the mismatch message to `err` but lacks a `return`, so the
subsequent `signer, err := jose.NewSigner(curveJose, privateKey)` binding
overwrites `err`; the embedding mirrors this with a dead let-binding. -/
def NewIssuer (f : PrivKeyFile) : Except String Issuer :=
  match f with
  | .unreadable e => .error e
  | .undecodable e => .error e
  | .otherKey t =>
    .error ("expected an ECDSA private key, but got a key of type " ++ t)
  | .ecdsaKey ecdsaKey =>
    let _errCurveMismatch : Option String :=
      if ecdsaKey.curve ≠ curveName then
        some ("expected the key to use " ++ curveName ++ ", but it is using "
          ++ ecdsaKey.curve)
      else none
    match joseNewSigner curveJose ecdsaKey with
    | .error e => .error (joseErrStr e)
    | .ok signer =>
      .ok { verifier := ⟨ecdsaKey.public⟩, signer := signer,
            logTokenIssued := none }

/-- Source `Issuer.Issue` (lines 187-215): marshal the token, sign it,
compact-serialize.  The `LogTokenIssued` observer block in the source is
commented out, so the observer is never invoked and the signed string is
returned directly. -/
def Issuer.Issue (iss : Issuer) (token : Token) : Except String Wire :=
  let tokenBytes := protoMarshal token
  match joseSignerSign iss.signer tokenBytes with
  | .error e => .error (joseErrStr e)
  | .ok jws =>
    let signed := joseCompactSerialize jws
    .ok signed

/-- A successful file write: path, numeric mode, content bytes. -/
structure FileWrite where
  path : String
  mode : Nat
  data : List Nat
deriving DecidableEq, Repr

/-- Environment of effects for `GenerateKeypair`: the outcome of
`ecdsa.GenerateKey`, of the two x509 marshalling calls, and whether a write
to a given path succeeds. -/
structure KeygenEnv where
  genKey : Except String ECPrivateKey
  marshalPriv : ECPrivateKey → Except String (List Nat)
  marshalPub : ECPublicKey → Except String (List Nat)
  writeOk : String → Bool

/-- Source `GenerateKeypair` (lines 123-144), translated statement by
statement.  Returns the Go function's error result together with the list of
file writes that succeeded, in order. -/
def GenerateKeypair (env : KeygenEnv) (filename : String) :
    Option String × List FileWrite :=
  match env.genKey with
  | .error e => (some e, [])
  | .ok priv =>
    match env.marshalPriv priv with
    | .error e => (some e, [])
    | .ok keyPEM =>
      if env.writeOk (filename ++ ".priv") then
        let w1 : FileWrite := ⟨filename ++ ".priv", 0o600, keyPEM⟩
        match env.marshalPub priv.public with
        | .error e => (some ("Error marshalling public key: " ++ e), [w1])
        | .ok pubKeyPEM =>
          if env.writeOk (filename ++ ".pub") then
            (none, [w1, ⟨filename ++ ".pub", 0o644, pubKeyPEM⟩])
          else (some "write error", [w1])
      else (some "write error", [])

/-! Helper lemmas shared by the claim theorems. -/

/-- A successful jose verification always returns the payload of the JWS
object that was verified. -/
theorem joseJWSVerify_ok (pub : ECPublicKey) (w : JWS) (b : Bytes)
    (h : joseJWSVerify pub w = .ok b) : b = w.payload := by
  unfold joseJWSVerify at h
  split at h
  · split at h
    · exact (Except.ok.inj h).symm
    · cases h
  · cases h

/-! Claim theorems. -/

/-- C2: a token is judged expired iff its expiration is strictly less than
the current time in milliseconds; expiration equal to now is still valid,
and expiration equal to now minus one is expired. -/
theorem tokenExpired_strict_lt (t : Token) (now : Int) :
    (TokenExpired t now = true ↔ t.expiration < now)
      ∧ (t.expiration = now → TokenExpired t now = false)
      ∧ (t.expiration = now - 1 → TokenExpired t now = true) := by
  refine ⟨?_, fun h => ?_, fun h => ?_⟩ <;> simp [TokenExpired] <;> omega

/-- Witness: a token expiring exactly now is not expired, one expiring one
millisecond earlier is. -/
theorem tokenExpired_strict_lt_witness :
    TokenExpired ⟨5, []⟩ 5 = false ∧ TokenExpired ⟨4, []⟩ 5 = true :=
  ⟨(tokenExpired_strict_lt ⟨5, []⟩ 5).2.1 rfl,
   (tokenExpired_strict_lt ⟨4, []⟩ 5).2.2 (by decide)⟩

/-- C9: Verify is a pure function of the wire string, the stored public key
and the current time: verifiers holding equal public keys return identical
results on the same input at the same time; the embedding of the method is
state-free because the source reads only its receiver's key and `time.Now()`
and performs no writes. -/
theorem verify_pure (ev ev' : ecdsaVerifier)
    (h : ev.publicKey = ev'.publicKey) (now : Int) (s : Wire) :
    ecdsaVerifier.Verify ev now s = ecdsaVerifier.Verify ev' now s := by
  cases ev; cases ev'; cases h; rfl

/-- Witness for verify_pure at a concrete verifier and input. -/
theorem verify_pure_witness :
    ecdsaVerifier.Verify ⟨⟨0, curveName⟩⟩ 0 (.malformed "x")
      = ecdsaVerifier.Verify ⟨⟨0, curveName⟩⟩ 0 (.malformed "x") :=
  verify_pure ⟨⟨0, curveName⟩⟩ ⟨⟨0, curveName⟩⟩ rfl 0 (.malformed "x")

/-- C10: whenever either Verify variant returns a non-nil error, the token
result is nil: no caller receives both an error and a decoded token. -/
theorem verify_err_implies_nil_token :
    (∀ (ev : ecdsaVerifier) (now : Int) (s : Wire),
        (ecdsaVerifier.Verify ev now s).2 ≠ none →
          (ecdsaVerifier.Verify ev now s).1 = none)
      ∧ (∀ (v : Verifier) (s : Wire),
        (Verifier.Verify v s).2 ≠ none → (Verifier.Verify v s).1 = none) := by
  constructor
  · intro ev now s h
    cases s with
    | malformed s => rfl
    | compact jws =>
      rcases hv : joseJWSVerify ev.publicKey jws with e | payload
      · simp [ecdsaVerifier.Verify, joseParseSigned, hv]
      · rcases hu : jsonUnmarshal payload with e | tok
        · simp [ecdsaVerifier.Verify, joseParseSigned, hv, hu]
        · by_cases hexp : TokenExpired tok now = true
          · simp [ecdsaVerifier.Verify, joseParseSigned, hv, hu, hexp]
          · rw [Bool.not_eq_true] at hexp
            exact absurd (by simp [ecdsaVerifier.Verify, joseParseSigned,
              hv, hu, hexp]) h
  · intro v s h
    cases s with
    | malformed s => rfl
    | compact jws =>
      rcases hv : joseJWSVerify v.publicKey jws with e | payload
      · simp [Verifier.Verify, joseParseSigned, hv]
      · rcases hu : protoUnmarshal payload with e | tok
        · simp [Verifier.Verify, joseParseSigned, hv, hu]
        · exact absurd (by simp [Verifier.Verify, joseParseSigned, hv, hu]) h

/-- Witness: on a malformed wire string both Verify variants return a nil
token alongside their parse error. -/
theorem verify_err_implies_nil_token_witness :
    (ecdsaVerifier.Verify ⟨⟨0, curveName⟩⟩ 0 (.malformed "x")).1 = none
      ∧ (Verifier.Verify ⟨⟨0, curveName⟩⟩ (.malformed "x")).1 = none :=
  ⟨verify_err_implies_nil_token.1 ⟨⟨0, curveName⟩⟩ 0 (.malformed "x")
      (by decide),
   verify_err_implies_nil_token.2 ⟨⟨0, curveName⟩⟩ (.malformed "x")
      (by decide)⟩

/-- Observer that always reports failure, for evaluating Issue. -/
def failingObserver : Wire → Token → Option String :=
  fun _ _ => some "observer failed"

/-- An issuer over a P-256 key configured with the failing observer. -/
def observedIssuer : Issuer :=
  { verifier := ⟨⟨0, curveName⟩⟩, signer := (curveJose, ⟨0, curveName⟩),
    logTokenIssued := some failingObserver }

/-- C4: the LogTokenIssued block in Issue is commented out in the source, so
an issuer configured with an observer that reports failure still returns the
signed wire string with a nil error, contradicting the field's own
documentation that the token must then be withheld. -/
theorem issue_ignores_failing_observer :
    observedIssuer.Issue ⟨1000, []⟩
      = .ok (.compact ⟨curveJose, .protoEnc ⟨1000, []⟩,
          ⟨0, curveJose, .protoEnc ⟨1000, []⟩⟩⟩) := rfl

/-- C6: NewIssuer on an ECDSA private key on curve P-384 returns an issuer
with a nil error: the curve-mismatch error assigned in the source is dead
because the missing return lets the jose.NewSigner binding overwrite it. -/
theorem newIssuer_wrong_curve_succeeds :
    NewIssuer (.ecdsaKey ⟨0, "P-384"⟩)
      = .ok { verifier := ⟨⟨0, "P-384"⟩⟩, signer := (curveJose, ⟨0, "P-384"⟩),
              logTokenIssued := none } := rfl

/-- C7 counterexample: NewVerifier accepts an ECDSA public key on curve
P-384, although the claim requires construction to fail for any curve other
than the fixed P-256. -/
theorem newVerifier_wrong_curve_accepted :
    NewVerifier (.ecdsaKey ⟨0, "P-384"⟩) = .ok ⟨⟨0, "P-384"⟩⟩ := rfl

/-- C7 amended: NewVerifier fails exactly when the file is unreadable,
undecodable, or decodes to a non-ECDSA key; an ECDSA public key on any curve
is accepted — the curve is not checked at construction. -/
theorem newVerifier_ok_iff (f : PubKeyFile) :
    (∃ v, NewVerifier f = .ok v) ↔ ∃ k, f = .ecdsaKey k := by
  cases f <;> simp [NewVerifier]

/-- Witness: NewVerifier accepts an ECDSA public key on the fixed curve. -/
theorem newVerifier_ok_iff_witness :
    ∃ v, NewVerifier (.ecdsaKey ⟨0, curveName⟩) = .ok v :=
  (newVerifier_ok_iff (.ecdsaKey ⟨0, curveName⟩)).2 ⟨⟨0, curveName⟩, rfl⟩

/-- C1: for every token whose expiration lies strictly in the future, an
issuer built from a P-256 private key issues a wire string that the verifier
holding the matching public key accepts, returning exactly the original
token with no field lost. -/
theorem issue_verify_roundtrip (priv : ECPrivateKey) (t : Token) (now : Int)
    (hcurve : priv.curve = curveName) (hexp : now < t.expiration) :
    ∃ iss w,
      NewIssuer (.ecdsaKey priv) = .ok iss ∧
      iss.Issue t = .ok w ∧
      Verifier.Verify ⟨priv.public⟩ w = (some t, none) := by
  obtain ⟨keyId, curve⟩ := priv
  replace hcurve : curve = curveName := hcurve
  subst hcurve
  refine ⟨_, _, rfl, rfl, ?_⟩
  simp [Verifier.Verify, joseParseSigned, joseJWSVerify, algCurve,
    protoUnmarshal, ECPrivateKey.public, curveName, curveJose,
    joseCompactSerialize, joseSignerSign, protoMarshal, Issuer.Issue,
    NewIssuer, joseNewSigner]

/-- Witness for the round trip at a concrete key and token. -/
theorem issue_verify_roundtrip_witness :
    ∃ iss w,
      NewIssuer (.ecdsaKey ⟨0, curveName⟩) = .ok iss ∧
      iss.Issue ⟨1000, [("sub", "alice")]⟩ = .ok w ∧
      Verifier.Verify ⟨ECPrivateKey.public ⟨0, curveName⟩⟩ w
        = (some ⟨1000, [("sub", "alice")]⟩, none) :=
  issue_verify_roundtrip ⟨0, curveName⟩ ⟨1000, [("sub", "alice")]⟩ 0 rfl
    (by decide)

/-- C3: the expired-token error is surfaced only after parsing, signature
verification and payload decoding have all succeeded on the decoded token,
and a token is returned (with nil error) only when every stage passed and
the token is unexpired. -/
theorem verify_stage_order (ev : ecdsaVerifier) (now : Int) (s : Wire) :
    ((ecdsaVerifier.Verify ev now s).2 = some .tokenExpired ↔
      ∃ jws tok, joseParseSigned s = .ok jws ∧
        joseJWSVerify ev.publicKey jws = .ok jws.payload ∧
        jsonUnmarshal jws.payload = .ok tok ∧ TokenExpired tok now = true)
    ∧ (∀ tok, (ecdsaVerifier.Verify ev now s).1 = some tok →
      (ecdsaVerifier.Verify ev now s).2 = none ∧
      ∃ jws, joseParseSigned s = .ok jws ∧
        joseJWSVerify ev.publicKey jws = .ok jws.payload ∧
        jsonUnmarshal jws.payload = .ok tok ∧
        TokenExpired tok now = false) := by
  cases s with
  | malformed s =>
    constructor
    · simp [ecdsaVerifier.Verify, joseParseSigned, joseErrToVerifyError]
    · intro tok h
      exact absurd h (by simp [ecdsaVerifier.Verify, joseParseSigned])
  | compact jws =>
    rcases hv : joseJWSVerify ev.publicKey jws with e | payload
    · constructor
      · simp only [ecdsaVerifier.Verify, joseParseSigned, hv]
        cases e <;> simp [joseErrToVerifyError, hv]
      · intro tok h
        simp [ecdsaVerifier.Verify, joseParseSigned, hv] at h
    · obtain rfl : payload = jws.payload := joseJWSVerify_ok _ _ _ hv
      rcases hu : jsonUnmarshal jws.payload with e | tok
      · constructor
        · simp [ecdsaVerifier.Verify, joseParseSigned, hv, hu]
        · intro tok h
          simp [ecdsaVerifier.Verify, joseParseSigned, hv, hu] at h
      · by_cases hexp : TokenExpired tok now = true
        · constructor
          · simp [ecdsaVerifier.Verify, joseParseSigned, hv, hu, hexp]
          · intro tok' h
            simp [ecdsaVerifier.Verify, joseParseSigned, hv, hu, hexp] at h
        · rw [Bool.not_eq_true] at hexp
          constructor
          · simp [ecdsaVerifier.Verify, joseParseSigned, hv, hu, hexp]
          · intro tok' h
            simp only [ecdsaVerifier.Verify, joseParseSigned, hv, hu,
              hexp, if_false] at h ⊢
            obtain rfl : tok = tok' := Option.some.inj h
            exact ⟨rfl, jws, rfl, hv, hu, hexp⟩

/-- A JWS object signed by key 0 over a JSON token encoding, used to
evaluate the stage-order theorem. -/
def expiredJws : JWS :=
  ⟨curveJose, .jsonEnc ⟨0, []⟩, ⟨0, curveJose, .jsonEnc ⟨0, []⟩⟩⟩

/-- Witness: on a validly signed but expired token the stage-order theorem
yields the successful earlier stages. -/
theorem verify_stage_order_witness :
    ∃ jws tok, joseParseSigned (.compact expiredJws) = .ok jws ∧
      joseJWSVerify ⟨0, curveName⟩ jws = .ok jws.payload ∧
      jsonUnmarshal jws.payload = .ok tok ∧ TokenExpired tok 5 = true :=
  (verify_stage_order ⟨⟨0, curveName⟩⟩ 5 (.compact expiredJws)).1.mp
    (by decide)

/-- A JWS object whose header declares ES384 but whose signature is the
matching key's genuine signature over the ES384-declared header and
payload. -/
def wrongAlgJws : JWS :=
  ⟨"ES384", .jsonEnc ⟨0, []⟩, ⟨0, "ES384", .jsonEnc ⟨0, []⟩⟩⟩

/-- C5: the package performs no algorithm pinning.  Verify delegates to
go-jose's ECDSA verification, which accepts any declared algorithm among
ES256, ES384 and ES512, so a wire string declaring ES384 whose signature is
the matching P-256 key's genuine signature over the declared content is
accepted and returns the decoded token — it is not rejected with an
algorithm-mismatch error as the claim requires. -/
theorem verify_accepts_wrong_alg_wire :
    ecdsaVerifier.Verify ⟨⟨0, curveName⟩⟩ 0 (.compact wrongAlgJws)
      = (some ⟨0, []⟩, none) := rfl

/-- C8: GenerateKeypair reports no error exactly when key generation, both
encodings and both writes succeed, and in that case its successful writes
are the private key at filename.priv with mode 0600 followed by the public
key at filename.pub with mode 0644. -/
theorem generateKeypair_writes (env : KeygenEnv) (filename : String) :
    ((GenerateKeypair env filename).1 = none →
      ∃ keyPEM pubKeyPEM,
        (GenerateKeypair env filename).2 =
          [⟨filename ++ ".priv", 0o600, keyPEM⟩,
           ⟨filename ++ ".pub", 0o644, pubKeyPEM⟩])
    ∧ ((GenerateKeypair env filename).1 = none ↔
      ∃ priv keyPEM pubKeyPEM,
        env.genKey = .ok priv ∧ env.marshalPriv priv = .ok keyPEM ∧
        env.writeOk (filename ++ ".priv") = true ∧
        env.marshalPub priv.public = .ok pubKeyPEM ∧
        env.writeOk (filename ++ ".pub") = true) := by
  rcases hg : env.genKey with e | priv
  · simp [GenerateKeypair, hg]
  · rcases hm : env.marshalPriv priv with e | keyPEM
    · simp [GenerateKeypair, hg, hm]
    · by_cases hw1 : env.writeOk (filename ++ ".priv") = true
      · rcases hp : env.marshalPub priv.public with e | pubKeyPEM
        · simp [GenerateKeypair, hg, hm, hw1, hp]
        · by_cases hw2 : env.writeOk (filename ++ ".pub") = true
          · simp [GenerateKeypair, hg, hm, hw1, hp, hw2]
          · rw [Bool.not_eq_true] at hw2
            simp [GenerateKeypair, hg, hm, hw1, hp, hw2]
      · rw [Bool.not_eq_true] at hw1
        simp [GenerateKeypair, hg, hm, hw1]

/-- Environment in which every effectful step of GenerateKeypair
succeeds. -/
def allOkEnv : KeygenEnv :=
  { genKey := .ok ⟨0, curveName⟩, marshalPriv := fun _ => .ok [1],
    marshalPub := fun _ => .ok [2], writeOk := fun _ => true }

/-- Witness: under the all-success environment the two key files are written
with modes 0600 and 0644. -/
theorem generateKeypair_writes_witness :
    ∃ keyPEM pubKeyPEM,
      (GenerateKeypair allOkEnv "k").2 =
        [⟨"k" ++ ".priv", 0o600, keyPEM⟩, ⟨"k" ++ ".pub", 0o644, pubKeyPEM⟩] :=
  (generateKeypair_writes allOkEnv "k").1 rfl

end KubernetesLdap
